import Mathlib

/-!
Formal model of the rem100 EM100Pro SPI-flash-emulator controller.

Each definition is a shallow embedding of the corresponding Rust item,
keeping the source's names and control flow.  Byte buffers (`&[u8]`) are
modelled as `List Nat`; every read goes through `byteAt`, which truncates to
a byte, so the model coincides with the source on genuine byte buffers.
Machine-integer overflow is modelled with explicit `% 2^w` (release-build
wrapping semantics).  Rust `Result` values become `Except`; error variants
keep their names, with the human-readable message strings elided except
where a message carries data (the communication error records the two
counts embedded in its `format!` message).  Rust array-index panics are
modelled by an explicit `panic` result constructor.
-/

namespace Rem100

/-- Read byte `i` of a buffer (0 beyond the end, truncated to 8 bits). -/
def byteAt (d : List Nat) (i : Nat) : Nat := d.getD i 0 % 256

/-- Little-endian u16 read, as done by `LittleEndian::read_u16`. -/
def le16 (d : List Nat) (i : Nat) : Nat := byteAt d i + 256 * byteAt d (i + 1)

/-- Little-endian u32 read, as done by `LittleEndian::read_u32`. -/
def le32 (d : List Nat) (i : Nat) : Nat :=
  byteAt d i + 256 * byteAt d (i + 1) + 65536 * byteAt d (i + 2) +
    16777216 * byteAt d (i + 3)

/-- The byte slice `d[off..off+len]`, truncated to bytes. -/
def sliceBytes (d : List Nat) (off len : Nat) : List Nat :=
  ((d.drop off).take len).map (fun b => b % 256)

/-- Big-endian bytes of a 32-bit value, as composed by the Rust shifts
`(x >> 24) & 0xff`, `(x >> 16) & 0xff`, `(x >> 8) & 0xff`, `x & 0xff`. -/
def be32 (n : Nat) : List Nat :=
  [n / 2 ^ 24 % 256, n / 2 ^ 16 % 256, n / 2 ^ 8 % 256, n % 256]

/-- Error type from `src/error.rs` (message strings elided; `communication`
records the two counts its `format!` message carries). -/
inductive Err where
  | communication (sent expected : Nat)
  | invalidResponse
  | invalidFirmware
  | invalidConfig
  | invalidArgument
  | unsupportedHardware (v : Nat)
  deriving DecidableEq

/-- Whether an `Except` is the `ok` case. -/
def isOk {α β : Type} : Except α β → Bool
  | .ok _ => true
  | .error _ => false

instance {ε α : Type} [DecidableEq ε] [DecidableEq α] : DecidableEq (Except ε α) := by
  intro x y
  cases x <;> cases y
  case error.error a b | ok.ok a b =>
    exact if h : a = b then .isTrue (by rw [h]) else .isFalse (by simp [h])
  all_goals exact .isFalse (by simp)

/-! ## Hardware versions (`src/device.rs`) -/

/-- `HwVersion` from `src/device.rs`. -/
inductive HwVersion where
  | em100ProEarly
  | em100Pro
  | em100ProG2
  | unknown
  deriving DecidableEq

/-- The `repr(u8)` discriminant of each hardware version. -/
def HwVersion.code : HwVersion → Nat
  | .em100ProEarly => 0xff
  | .em100Pro => 0x04
  | .em100ProG2 => 0x06
  | .unknown => 0x00

/-- `impl From<u8> for HwVersion` (src/device.rs lines 37-46). -/
def hwVersionFrom (v : Nat) : HwVersion :=
  if v = 0xff then .em100ProEarly
  else if v = 0x04 then .em100Pro
  else if v = 0x06 then .em100ProG2
  else .unknown

/-! ## Firmware container validation (`src/firmware.rs`) -/

/-- ASCII bytes of the v1 magic string "em100pro". -/
def magicBytesV1 : List Nat := [0x65, 0x6d, 0x31, 0x30, 0x30, 0x70, 0x72, 0x6f]

/-- ASCII bytes of the v2 magic string "EM100Pro-G2". -/
def magicBytesV2 : List Nat :=
  [0x45, 0x4d, 0x31, 0x30, 0x30, 0x50, 0x72, 0x6f, 0x2d, 0x47, 0x32]

/-- ASCII bytes of the second magic string "WFPD". -/
def magicWFPD : List Nat := [0x57, 0x46, 0x50, 0x44]

/-- `FirmwareInfo` from `src/firmware.rs`; the two version strings are kept
as the raw header byte ranges (the `from_utf8_lossy`/`trim` rendering is
presentation only). -/
structure FirmwareInfo where
  mcu_version : List Nat
  fpga_version : List Nat
  fpga_offset : Nat
  fpga_len : Nat
  mcu_offset : Nat
  mcu_len : Nat
  deriving DecidableEq

/-- Body of `validate_firmware` after the magic checks (src/firmware.rs
lines 212-237): read the four little-endian u32 header fields and enforce
the two length bounds.  The offset fields are read but not checked. -/
def validateBody (fw : List Nat) : Except Err FirmwareInfo :=
  let fpga_offset := le32 fw 0x38
  let fpga_len := le32 fw 0x3c
  let mcu_offset := le32 fw 0x40
  let mcu_len := le32 fw 0x44
  if fpga_len < 256 ∨ mcu_len < 256 ∨ fpga_len > 0x100000 ∨ mcu_len > 0xf0000 then
    .error .invalidFirmware
  else
    .ok { mcu_version := sliceBytes fw 0x14 10
          fpga_version := sliceBytes fw 0x1e 10
          fpga_offset := fpga_offset
          fpga_len := fpga_len
          mcu_offset := mcu_offset
          mcu_len := mcu_len }

/-- `validate_firmware` (src/firmware.rs lines 190-238). -/
def validate_firmware (hw : HwVersion) (fw : List Nat) : Except Err FirmwareInfo :=
  match hw with
  | .em100ProEarly | .em100Pro =>
    if fw.length < 0x48 ∨ sliceBytes fw 0 8 ≠ magicBytesV1 ∨
        sliceBytes fw 0x28 4 ≠ magicWFPD then
      .error .invalidFirmware
    else validateBody fw
  | .em100ProG2 =>
    if fw.length < 0x48 ∨ sliceBytes fw 0 11 ≠ magicBytesV2 ∨
        sliceBytes fw 0x28 4 ≠ magicWFPD then
      .error .invalidFirmware
    else validateBody fw
  | .unknown => .error (.unsupportedHardware HwVersion.unknown.code)

/-- The hardware-appropriate primary magic check of `validate_firmware`. -/
def headerMagicOk (hw : HwVersion) (fw : List Nat) : Prop :=
  match hw with
  | .em100ProEarly | .em100Pro => sliceBytes fw 0 8 = magicBytesV1
  | .em100ProG2 => sliceBytes fw 0 11 = magicBytesV2
  | .unknown => False

instance (hw : HwVersion) (fw : List Nat) : Decidable (headerMagicOk hw fw) := by
  unfold headerMagicOk; cases hw <;> infer_instance

/-- The two length bounds `validate_firmware` enforces. -/
def lenBoundsOk (fw : List Nat) : Prop :=
  256 ≤ le32 fw 0x3c ∧ le32 fw 0x3c ≤ 0x100000 ∧
    256 ≤ le32 fw 0x44 ∧ le32 fw 0x44 ≤ 0xf0000

instance (fw : List Nat) : Decidable (lenBoundsOk fw) := by
  unfold lenBoundsOk; infer_instance

/-! ## Firmware dump to DPFW (`src/firmware.rs`, `firmware_to_dpfw`) -/

/-- Result of scanning for the first all-0xff 256-byte block. -/
inductive ScanRes where
  | found (i : Nat)
  | notFound
  | panic
  deriving DecidableEq

/-- Whether `data[start..start+256]` is all 0xff (compared in-bounds only:
the caller checks the bound first and panics otherwise). -/
def allFFBlock (data : List Nat) (start : Nat) : Bool :=
  sliceBytes data start 256 = List.replicate 256 0xff

/-- The `for i in (0..limit).step_by(0x100)` scans of `firmware_to_dpfw`:
look for the first all-0xff page after `base`; `fuel` is the number of
blocks in range (4096 for the FPGA scan, 4095 for the MCU scan).  A slice
`data[base+i..base+i+256]` beyond the buffer is a Rust panic. -/
def scanBlocks (data : List Nat) (base : Nat) : Nat → Nat → ScanRes
  | 0, _ => .notFound
  | fuel + 1, i =>
    if data.length < base + i + 256 then .panic
    else if allFFBlock data (base + i) then .found i
    else scanBlocks data base fuel (i + 0x100)

/-- Outcome value of `firmware_to_dpfw`: header version and the located
image sizes and bodies.  The construction of the literal 0x100-byte header
(magic copy plus decimal version strings) is elided; it examines no input
and affects no control flow. -/
structure DpfwOut where
  hdrVersion : Nat
  fpgaSize : Nat
  mcuSize : Nat
  fpgaBody : List Nat
  mcuBody : List Nat
  deriving DecidableEq

/-- Result of `firmware_to_dpfw`, with Rust slice panics explicit. -/
inductive DpfwResult where
  | ok (out : DpfwOut)
  | err (e : Err)
  | panic
  deriving DecidableEq

/-- `firmware_to_dpfw` (src/firmware.rs lines 67-130). -/
def firmware_to_dpfw (hw : HwVersion) (data : List Nat) : DpfwResult :=
  match hw with
  | .unknown => .err (.unsupportedHardware HwVersion.unknown.code)
  | .em100ProEarly | .em100Pro => dpfwBody 1 data
  | .em100ProG2 => dpfwBody 2 data
where
  /-- The scan-and-package part shared by all supported versions. -/
  dpfwBody (hv : Nat) (data : List Nat) : DpfwResult :=
    match scanBlocks data 0 4096 0 with
    | .panic => .panic
    | .notFound => .err .invalidFirmware
    | .found fpgaSize =>
      if fpgaSize = 0 then .err .invalidFirmware
      else
        match scanBlocks data 0x100100 4095 0 with
        | .panic => .panic
        | .notFound => .err .invalidFirmware
        | .found mcuSize =>
          if mcuSize = 0 then .err .invalidFirmware
          else
            .ok { hdrVersion := hv
                  fpgaSize := fpgaSize
                  mcuSize := mcuSize
                  fpgaBody := sliceBytes data 0 fpgaSize
                  mcuBody := sliceBytes data 0x100100 mcuSize }

/-! ## Chip-configuration parsing (`src/chips.rs`) -/

/-- `NUM_INIT_ENTRIES` from `src/chips.rs`. -/
def NUM_INIT_ENTRIES : Nat := 212

/-- `ChipDesc` from `src/chips.rs`.  The fixed `[[u8; 4]; 212]` array with
fill count `init_len` is represented by the list of its first `init_len`
records (so `init_len = init.length`); writing a record at index `init_len`
after a `< 212` bound check corresponds to appending.  The two name strings
are kept as raw bytes (`from_utf8_lossy` rendering is presentation only). -/
structure ChipDesc where
  vendor : List Nat
  name : List Nat
  size : Nat
  init : List (List Nat)
  deriving DecidableEq

/-- Result of `parse_dcfg`: success, `InvalidConfig` error (messages
elided), or a Rust index-out-of-bounds panic. -/
inductive DcfgResult where
  | ok (c : ChipDesc)
  | err
  | panic
  deriving DecidableEq

/-- Result of parsing one optional section (`parse_sfdp` / `parse_srst`). -/
inductive SectionRes where
  | ok (init : List (List Nat))
  | err
  | panic
  deriving DecidableEq

/-- A null-terminated string read: bytes from `off` up to the first 0 byte,
or the whole rest of the buffer when no 0 occurs (src/chips.rs 85-102). -/
def readCString (d : List Nat) (off : Nat) : List Nat :=
  ((d.drop off).map (fun b => b % 256)).takeWhile (fun b => b ≠ 0)

/-- The primary init-sequence loop of `parse_dcfg` (src/chips.rs 104-130):
walk little-endian `(value, reg)` u16 pairs from `pos` while
`pos + 4 <= 176` and fewer than 212 records are emitted; the
`(0xffff, 0xffff)` sentinel switches `regOffset` to 0x1100 and emits
nothing; otherwise emit `[hi, lo, value_hi, value_lo]` of
`full_reg = (reg + regOffset) mod 2^16` (u16 wrapping addition, i.e.
release-build semantics of `reg + reg_offset`).  `fuel` bounds the
iteration count; 44 suffices from any start since `pos` grows by 4 and the
loop needs `pos + 4 ≤ 176`. -/
def parse_init (data : List Nat) : Nat → Nat → Nat → List (List Nat) → List (List Nat)
  | 0, _, _, init => init
  | fuel + 1, pos, regOffset, init =>
    if pos + 4 ≤ 176 ∧ init.length < NUM_INIT_ENTRIES then
      let value := le16 data pos
      let reg := le16 data (pos + 2)
      if value = 0xffff ∧ reg = 0xffff then
        parse_init data fuel (pos + 4) 0x1100 init
      else
        let full_reg := (reg + regOffset) % 65536
        parse_init data fuel (pos + 4) regOffset
          (init ++ [[full_reg / 256, full_reg % 256, value / 256, value % 256]])
    else init

/-- The per-word loop of `parse_sfdp` (src/chips.rs 181-191): for each of
the 128 u16 words of the 256-byte payload append the byte-swapped record,
stopping at the 212 bound.  `fuel = 128` at the top-level call. -/
def sfdpLoop (data : List Nat) : Nat → Nat → List (List Nat) → List (List Nat)
  | 0, _, init => init
  | fuel + 1, i, init =>
    if i < 256 then
      if init.length ≥ NUM_INIT_ENTRIES then init
      else sfdpLoop data fuel (i + 2)
        (init ++ [[0x23, 0xc1, byteAt data (i + 1), byteAt data i]])
    else init

/-- `parse_sfdp` (src/chips.rs 165-194).  The enable-SFDP preamble record
is written at index `init.length` with no bound check in the source, so an
already-full init list is a Rust index-out-of-bounds panic. -/
def parse_sfdp (data : List Nat) (init : List (List Nat)) : SectionRes :=
  if data.length < 256 then .err
  else if init.length ≥ NUM_INIT_ENTRIES then .panic
  else .ok (sfdpLoop data 128 0 (init ++ [[0x23, 0xc9, 0x00, 0x01]]))

/-- The three pre-PROT records of `parse_srst` (src/chips.rs 208-218). -/
def srstPre (data : List Nat) : Nat → List (List Nat) → List (List Nat)
  | 0, init => init
  | fuel + 1, init =>
    let j := 3 - (fuel + 1)
    if init.length ≥ NUM_INIT_ENTRIES then init
    else srstPre data fuel
      (init ++ [[0x23, byteAt data (j * 4 + 2), byteAt data (j * 4 + 1), byteAt data (j * 4)]])

/-- The tail loop of `parse_srst` (src/chips.rs 234-244): byte-swapped
0xc5 records every 2 bytes from `start` to 144, stopping at the 212 bound.
`fuel = 70` suffices (at most 70 iterations from start 4). -/
def srstLoop (data : List Nat) : Nat → Nat → List (List Nat) → List (List Nat)
  | 0, _, init => init
  | fuel + 1, i, init =>
    if i < 144 then
      if init.length ≥ NUM_INIT_ENTRIES then init
      else srstLoop data fuel (i + 2)
        (init ++ [[0x23, 0xc5, byteAt data (i + 1), byteAt data i]])
    else init

/-- `parse_srst` (src/chips.rs 196-247). -/
def parse_srst (data : List Nat) (init : List (List Nat)) : SectionRes :=
  if data.length < 144 then .err
  else
    let magic := le32 data 0
    let pre := if magic ≠ 0x544f5250 then srstPre data 3 init else init
    let startOffset := if magic ≠ 0x544f5250 then 16 else 4
    let withProt :=
      if pre.length < NUM_INIT_ENTRIES then pre ++ [[0x23, 0xc4, 0x00, 0x01]] else pre
    .ok (srstLoop data 70 startOffset withProt)

/-- The optional-sections loop of `parse_dcfg` (src/chips.rs 132-159):
while at least 4 bytes remain, read a section magic and dispatch; an
unknown magic breaks.  `length` mirrors the Rust `length` variable
(`Nat` subtraction is the `saturating_sub` of the source); `fuel` bounds
the iteration count and `data.length` always suffices, since each
iteration consumes at least 4 of `length`. -/
def parse_sections (data : List Nat) : Nat → Nat → Nat → List (List Nat) → SectionRes
  | 0, _, _, init => .ok init
  | fuel + 1, ptr, length, init =>
    if length ≥ 4 then
      let magic := le32 data ptr
      if magic = 0x50444653 then
        match parse_sfdp (data.drop (ptr + 4)) init with
        | .err => .err
        | .panic => .panic
        | .ok init1 => parse_sections data fuel (ptr + 4 + 256) (length - 4 - 256) init1
      else if magic = 0x54535253 then
        match parse_srst (data.drop (ptr + 4)) init with
        | .err => .err
        | .panic => .panic
        | .ok init1 => parse_sections data fuel (ptr + 4 + 144) (length - 4 - 144) init1
      else .ok init
    else .ok init

/-- `parse_dcfg` (src/chips.rs 54-163). -/
def parse_dcfg (data : List Nat) : DcfgResult :=
  if data.length < 176 then .err
  else if le32 data 0 ≠ 0x67666344 then .err
  else if le16 data 6 ≠ 1 ∨ le16 data 4 ≠ 1 then .err
  else
    let init_offset := le32 data 8
    let size := le32 data 12
    let vendor_offset := le32 data 16
    let chip_name_offset := le32 data 20
    let vendor := if vendor_offset < data.length then readCString data vendor_offset else []
    let name :=
      if chip_name_offset < data.length then readCString data chip_name_offset else []
    let primary := parse_init data 44 init_offset 0x2300 []
    match parse_sections data data.length 176 (data.length - 176) primary with
    | .err => .err
    | .panic => .panic
    | .ok init => .ok { vendor := vendor, name := name, size := size, init := init }

/-! ## USB transport (`src/usb.rs`) -/

/-- The 16 bytes `send_cmd` transmits (src/usb.rs 18-22): a zeroed 16-byte
buffer whose first `min (data.length) 16` bytes are copied from `data`. -/
def send_cmd_payload (data : List Nat) : List Nat :=
  (data.take 16).map (fun b => b % 256) ++ List.replicate (16 - min data.length 16) 0

/-- Outcome of `send_cmd` (src/usb.rs 24-38), parameterised by the number
of bytes the endpoint reports written: anything other than 16 is the
communication error recording `(written, 16)`. -/
def send_cmd_result (written : Nat) : Except Err Unit :=
  if written ≠ 16 then .error (.communication written 16) else .ok ()

/-! ## SDRAM transfer (`src/sdram.rs`) -/

/-- `TRANSFER_LENGTH` from `src/sdram.rs`: the 2 MiB chunk size. -/
def TRANSFER_LENGTH : Nat := 0x200000

/-- The 16-byte SDRAM-write header command (src/sdram.rs 134-151). -/
def write_sdram_cmd (address length : Nat) : List Nat :=
  [0x40,
   address / 2 ^ 24 % 256, address / 2 ^ 16 % 256, address / 2 ^ 8 % 256, address % 256,
   length / 2 ^ 24 % 256, length / 2 ^ 16 % 256, length / 2 ^ 8 % 256, length % 256,
   0, 0, 0, 0, 0, 0, 0]

/-- Observable outcome of the chunk loop of `write_sdram_with_progress`:
total bytes the endpoint accepted, the submitted chunk sizes in order, and
the `bytes_sent` values reported to the progress callback (one per chunk,
reported after the chunk). -/
structure WriteRun where
  sent : Nat
  chunks : List Nat
  progress : List Nat
  deriving DecidableEq

/-- The chunk loop of `write_sdram_with_progress` (src/sdram.rs 157-177).
`accept k want` is the `actual_len` the endpoint reports for chunk `k`; it
is clamped to the submitted size (a USB completion never exceeds its
buffer).  A short chunk ends the transfer.  `fuel ≥ length - sent` makes
the fuel-out case unreachable, since every continuing chunk sends at least
one byte. -/
def write_sdram_loop (accept : Nat → Nat → Nat) (length : Nat) :
    Nat → Nat → Nat → WriteRun
  | 0, sent, _ => ⟨sent, [], []⟩
  | fuel + 1, sent, k =>
    if sent < length then
      let want := min (length - sent) TRANSFER_LENGTH
      let actual := min (accept k want) want
      if actual < want then ⟨sent + actual, [want], [sent + actual]⟩
      else
        let r := write_sdram_loop accept length fuel (sent + want) (k + 1)
        ⟨r.sent, want :: r.chunks, (sent + want) :: r.progress⟩
    else ⟨sent, [], []⟩

/-- The whole chunk phase of `write_sdram_with_progress`. -/
def write_sdram_run (accept : Nat → Nat → Nat) (length : Nat) : WriteRun :=
  write_sdram_loop accept length length 0 0

/-- Final result of `write_sdram_with_progress` (src/sdram.rs 179-186):
an error recording `(sent, length)` when the totals disagree. -/
def write_sdram_result (accept : Nat → Nat → Nat) (length : Nat) : Except Err Unit :=
  if (write_sdram_run accept length).sent ≠ length then
    .error (.communication (write_sdram_run accept length).sent length)
  else .ok ()

/-! ## System operations (`src/system.rs`) -/

/-- `SetVoltageChannel` from `src/system.rs`. -/
inductive SetVoltageChannel where
  | triggerVcc
  | resetVcc
  | refPlus
  | refMinus
  | bufferVcc
  deriving DecidableEq

/-- The `repr(u8)` discriminant of each set-voltage channel. -/
def SetVoltageChannel.code : SetVoltageChannel → Nat
  | .triggerVcc => 0
  | .resetVcc => 1
  | .refPlus => 2
  | .refMinus => 3
  | .bufferVcc => 4

/-- `set_voltage` (src/system.rs 63-90), with `mv : u16` modelled modulo
2^16.  On success the returned value is the single 16-byte command sent to
the device; the error case sends nothing. -/
def set_voltage (channel : SetVoltageChannel) (mv : Nat) : Except Err (List Nat) :=
  if channel = .bufferVcc ∧ mv % 65536 ≠ 18 ∧ mv % 65536 ≠ 25 ∧ mv % 65536 ≠ 33 then
    .error .invalidArgument
  else
    .ok [0x11, channel.code, mv % 65536 / 256, mv % 65536 % 256,
      0, 0, 0, 0, 0, 0, 0, 0, 0, 0, 0, 0]

/-! ## Serial-number programming (`src/device.rs`, `set_serial_no`) -/

/-- One internal-SPI-flash operation issued by `set_serial_no`, in the
order the source issues them. -/
inductive SpiOp where
  | readPage (addr : Nat)
  | unlock
  | getFlashId
  | eraseSector (s : Nat)
  | writePage (addr : Nat) (page : List Nat)
  deriving DecidableEq

/-- The serial number stored little-endian at bytes 2..6 of the identity
page (src/device.rs 387-390). -/
def storedSerial (page : List Nat) : Nat :=
  byteAt page 5 * 2 ^ 24 + byteAt page 4 * 2 ^ 16 + byteAt page 3 * 2 ^ 8 + byteAt page 2

/-- The identity page with bytes 2..6 replaced by the new serial,
little-endian (src/device.rs 396-399). -/
def patchSerial (page : List Nat) (serial : Nat) : List Nat :=
  ((((page.set 2 (serial % 256)).set 3 (serial / 2 ^ 8 % 256)).set 4
      (serial / 2 ^ 16 % 256)).set 5 (serial / 2 ^ 24 % 256))

/-- The sequence of internal-flash operations `Em100::set_serial_no`
issues (src/device.rs 383-416), as a function of the current contents of
the identity page at 0x1fff00, the magic page at 0x1f0000, and the
requested serial (a `u32`, modelled modulo 2^32).  The final
`readPage 0x1fff00` is the `get_device_info` re-read. -/
def set_serial_no (idPage magicPage : List Nat) (serial : Nat) : List SpiOp :=
  let old_serial := storedSerial idPage
  if old_serial = serial % 2 ^ 32 then [.readPage 0x1fff00]
  else
    [SpiOp.readPage 0x1fff00] ++
    (if old_serial ≠ 0xffffffff then
      [SpiOp.readPage 0x1f0000, .unlock, .getFlashId, .eraseSector 0x1f,
       .writePage 0x1f0000 magicPage]
     else []) ++
    [SpiOp.writePage 0x1fff00 (patchSerial idPage (serial % 2 ^ 32)),
     .readPage 0x1fff00]

/-! ## SPI trace decoder (`src/trace.rs`) -/

/-- `AddressType` from `src/trace.rs`. -/
inductive AddressType where
  | none
  | noOff3B
  | addr3B
  | addr4B
  | dynamic
  deriving DecidableEq

/-- `SpiCmdValues` from `src/trace.rs`. -/
structure SpiCmdValues where
  name : String
  cmd : Nat
  address_type : AddressType
  pad_bytes : Nat
  deriving DecidableEq

/-- `SPI_COMMAND_LIST` from `src/trace.rs` (same order; the last entry is
the unknown-command sentinel). -/
def SPI_COMMAND_LIST : List SpiCmdValues :=
  [⟨"read SFDP", 0x5a, .noOff3B, 0⟩,
   ⟨"write status register", 0x01, .none, 0⟩,
   ⟨"page program", 0x02, .dynamic, 0⟩,
   ⟨"read", 0x03, .dynamic, 0⟩,
   ⟨"write disable", 0x04, .none, 0⟩,
   ⟨"read status register", 0x05, .none, 0⟩,
   ⟨"write enable", 0x06, .none, 0⟩,
   ⟨"fast read", 0x0b, .dynamic, 1⟩,
   ⟨"EM100 specific", 0x11, .none, 0⟩,
   ⟨"fast dual read", 0x3b, .dynamic, 2⟩,
   ⟨"chip erase", 0x60, .none, 0⟩,
   ⟨"read JEDEC ID", 0x9f, .none, 0⟩,
   ⟨"chip erase c7h", 0xc7, .none, 0⟩,
   ⟨"sector erase d8h", 0xd8, .dynamic, 0⟩,
   ⟨"dual I/O read", 0xbb, .dynamic, 2⟩,
   ⟨"quad I/O read", 0xeb, .dynamic, 0⟩,
   ⟨"quad read", 0x6b, .dynamic, 0⟩,
   ⟨"quad I/O dt read", 0xed, .dynamic, 0⟩,
   ⟨"quad page program", 0x38, .dynamic, 0⟩,
   ⟨"sector erase 20h", 0x20, .dynamic, 0⟩,
   ⟨"block erase 32KB", 0x52, .dynamic, 0⟩,
   ⟨"enter 4b mode", 0xb7, .none, 0⟩,
   ⟨"exit 4b mode", 0xe9, .none, 0⟩,
   ⟨"read 4b", 0x13, .addr4B, 0⟩,
   ⟨"fast read 4b", 0x0c, .addr4B, 0⟩,
   ⟨"dual I/O read 4b", 0xbc, .addr4B, 0⟩,
   ⟨"dual out read 4b", 0x3c, .addr4B, 0⟩,
   ⟨"quad I/O read 4b", 0xec, .addr4B, 0⟩,
   ⟨"quad out read 4b", 0x6c, .addr4B, 0⟩,
   ⟨"quad I/O dt read 4b", 0xee, .addr4B, 0⟩,
   ⟨"page program 4b", 0x12, .addr4B, 0⟩,
   ⟨"quad page program 4b", 0x3e, .addr4B, 0⟩,
   ⟨"block erase 64KB 4b", 0xdc, .addr4B, 0⟩,
   ⟨"block erase 32KB 4b", 0x5c, .addr4B, 0⟩,
   ⟨"sector erase 4b", 0x21, .addr4B, 0⟩,
   ⟨"enter quad I/O mode", 0x35, .none, 0⟩,
   ⟨"exit quad I/O mode", 0xf5, .none, 0⟩,
   ⟨"unknown command", 0xff, .none, 0⟩]

/-- `get_command_vals` (src/trace.rs 270-275): linear lookup, falling back
to the final unknown-command entry. -/
def get_command_vals (command : Nat) : SpiCmdValues :=
  (SPI_COMMAND_LIST.find? (fun c => c.cmd = command)).getD
    ⟨"unknown command", 0xff, .none, 0⟩

/-- `TraceState` from `src/trace.rs` (u8/u64 fields as `Nat`, kept within
range by the transitions). -/
structure TraceState where
  counter : Nat
  curpos : Nat
  cmdid : Nat
  address_mode : Nat
  outbytes : Nat
  additional_pad_bytes : Nat
  address : Nat
  timestamp : Nat
  start_timestamp : Nat
  brief : Bool
  deriving DecidableEq

/-- `TraceState::new` (src/trace.rs 291-316). -/
def TraceState.new (brief : Bool) (address_mode : Nat) : TraceState :=
  { counter := 0, curpos := 0, cmdid := 0xff, address_mode := address_mode,
    outbytes := 0, additional_pad_bytes := 0, address := 0, timestamp := 0,
    start_timestamp := 0, brief := brief }

/-- One unit of decoder output.  `briefAddr`/`briefNoAddr` are the single
`println!` lines of brief mode; `header` is the verbose transaction
header; `addrMark`/`blankMark` are the per-line `\n%08x : ` and
`\n         : ` prefixes of verbose data output; `dataByte` is one `%02x `
print; `terminalPoll` marks the uFIFO drain on a timestamp record. -/
inductive TraceOut where
  | briefAddr (cmd addr : Nat) (name : String)
  | briefNoAddr (cmd : Nat) (name : String)
  | header (relTime counter cmd : Nat) (name : String)
  | addrMark (addr : Nat)
  | blankMark
  | dataByte (b : Nat)
  | terminalPoll
  deriving DecidableEq

/-- The verbose data-print loop of `read_spi_trace` (src/trace.rs
475-496): `fuel` is the remaining `blocklen - j` iterations; prints a line
prefix whenever `outbytes` is 0, then one data byte; after 16 bytes per
line resets `outbytes` and advances the address by 16.  Returns the final
`(outbytes, address)` and the emitted output. -/
def printLoop (aoff : Nat) (vals : SpiCmdValues) (data : List Nat) (i : Nat) :
    Nat → Nat → Nat → Nat → Nat × Nat × List TraceOut
  | 0, _, ob, ad => (ob, ad, [])
  | fuel + 1, j, ob, ad =>
    let pre : List TraceOut :=
      if ob = 0 then
        [match vals.address_type with
         | .dynamic | .addr3B | .addr4B => .addrMark (aoff + ad)
         | .noOff3B => .addrMark ad
         | .none => .blankMark]
      else []
    let obAd : Nat × Nat := if ob + 1 = 16 then (0, ad + 16) else (ob + 1, ad)
    let rest := printLoop aoff vals data i fuel (j + 1) obAd.1 obAd.2
    (rest.1, rest.2.1, pre ++ [TraceOut.dataByte (byteAt data (i * 8 + 4 + j))] ++ rest.2.2)

/-- Processing of record `i` of a report buffer by `read_spi_trace`
(src/trace.rs 368-501).  `dt` is the `display_terminal` flag, `aoff` the
caller's address offset.  `data` is the whole 8192-byte report, `i` the
record index; the record occupies `data[2+8i .. 10+8i]`.  The u64
`timestamp - start_timestamp` of the verbose header uses truncated `Nat`
subtraction (the source value never goes negative on the paths taken,
since `start_timestamp` is copied from `timestamp`). -/
def processRecord (dt : Bool) (aoff : Nat) (data : List Nat) (i : Nat)
    (s : TraceState) : TraceState × List TraceOut :=
  let base := 2 + i * 8
  let j0 := s.additional_pad_bytes
  let s0 := { s with additional_pad_bytes := 0 }
  let cmd := byteAt data base
  if cmd = 0 then (s0, [])
  else if cmd = 0xff then
    let ts := byteAt data (base + 2) * 2 ^ 40 + byteAt data (base + 3) * 2 ^ 32 +
      byteAt data (base + 4) * 2 ^ 24 + byteAt data (base + 5) * 2 ^ 16 +
      byteAt data (base + 6) * 2 ^ 8 + byteAt data (base + 7)
    ({ s0 with timestamp := ts }, if dt then [.terminalPoll] else [])
  else
    let newTx :=
      if cmd ≠ s0.cmdid then
        let spi_command := byteAt data (i * 8 + 4)
        let vals := get_command_vals spi_command
        let st := { s0 with cmdid := cmd }
        let st := if st.counter = 0 then { st with start_timestamp := st.timestamp } else st
        let st :=
          if spi_command = 0xb7 then { st with address_mode := 4 }
          else if spi_command = 0xe9 then { st with address_mode := 3 }
          else st
        let address_bytes : Nat :=
          match vals.address_type with
          | .dynamic => st.address_mode
          | .noOff3B | .addr3B => 3
          | .addr4B => 4
          | .none => 0
        let addr0 :=
          if address_bytes = 3 then
            byteAt data (i * 8 + 5) * 2 ^ 16 + byteAt data (i * 8 + 6) * 2 ^ 8 +
              byteAt data (i * 8 + 7)
          else if address_bytes = 4 then
            byteAt data (i * 8 + 5) * 2 ^ 24 + byteAt data (i * 8 + 6) * 2 ^ 16 +
              byteAt data (i * 8 + 7) * 2 ^ 8 + byteAt data (i * 8 + 8)
          else st.address
        let st := { st with address := addr0 % 2 ^ 32 }
        let j := 1 + address_bytes + vals.pad_bytes
        let st := if j > 6 then { st with additional_pad_bytes := j - 6 } else st
        let j := if j > 6 then 6 else j
        let stOut : TraceState × List TraceOut :=
          if st.brief then
            ({ st with start_timestamp := 0 },
             if vals.address_type ≠ AddressType.none then
               [.briefAddr spi_command st.address vals.name]
             else [.briefNoAddr spi_command vals.name])
          else
            ({ st with counter := st.counter + 1 },
             [.header (st.timestamp - st.start_timestamp) (st.counter + 1) spi_command
                vals.name])
        ({ stOut.1 with curpos := 0, outbytes := 0 }, j, stOut.2)
      else (s0, j0, ([] : List TraceOut))
    let s1 := newTx.1
    let j1 := newTx.2.1
    let out1 := newTx.2.2
    let dataPhase : TraceState × List TraceOut :=
      if s1.brief then
        (if s1.outbytes > 0 then { s1 with outbytes := s1.outbytes + 1 } else s1, [])
      else
        let blocklen := (byteAt data (base + 1) + 256 - s1.curpos % 256) % 256 / 8
        let vals := get_command_vals (byteAt data (i * 8 + 4))
        let run := printLoop aoff vals data i (blocklen - j1) j1 s1.outbytes s1.address
        ({ s1 with outbytes := run.1, address := run.2.1 }, run.2.2)
    ({ dataPhase.1 with curpos := (byteAt data (base + 1) + 0x10) % 256 },
     out1 ++ dataPhase.2)

/-- The record loop over one report buffer: process records `i`,
`i+1`, … for `n` records, threading state and concatenating output. -/
def processRecords (dt : Bool) (aoff : Nat) (data : List Nat) :
    Nat → Nat → TraceState → TraceState × List TraceOut
  | _, 0, s => (s, [])
  | i, n + 1, s =>
    let one := processRecord dt aoff data i s
    let rest := processRecords dt aoff data (i + 1) n one.1
    (rest.1, one.2 ++ rest.2)

/-- Per-buffer parsing of `read_spi_trace` (src/trace.rs 360-502): the
big-endian record count is read from the first two bytes, a zero count
skips the buffer, and the count is clamped to 1023. -/
def read_spi_trace_report (dt : Bool) (aoff : Nat) (data : List Nat)
    (s : TraceState) : TraceState × List TraceOut :=
  let count := byteAt data 0 * 256 + byteAt data 1
  if count = 0 then (s, [])
  else processRecords dt aoff data 0 (min count 1023) s

/-! ## Spec-side description of the primary init region

`primSpec` renders the spec's wording for §4.2 step 1-2 / claim C3: every
non-sentinel `(value, reg)` pair of the primary region is emitted with
`reg_offset = 0x2300` when it lies before the `(0xffff, 0xffff)` sentinel
and `0x1100` when it lies after it, and the sentinel itself emits
nothing.  It is compared against the code-side `parse_init`. -/

/-- The `(value, reg)` little-endian u16 pairs the primary loop visits
from `pos` (same `pos + 4 ≤ 176` guard and stride as the source loop). -/
def readPairs (data : List Nat) : Nat → Nat → List (Nat × Nat)
  | 0, _ => []
  | fuel + 1, pos =>
    if pos + 4 ≤ 176 then
      (le16 data pos, le16 data (pos + 2)) :: readPairs data fuel (pos + 4)
    else []

/-- The `(0xffff, 0xffff)` sentinel test. -/
def isSentinelPair (p : Nat × Nat) : Bool := p.1 == 0xffff && p.2 == 0xffff

/-- The 4-byte init record for a pair under a register offset:
`full_reg = (reg + off) mod 2^16` stored big-endian, then the value bytes
(spec §4.2 step 2, with the u16 wrap made explicit). -/
def mkInitRecord (off : Nat) (p : Nat × Nat) : List Nat :=
  let full := (p.2 + off) % 65536
  [full / 256, full % 256, p.1 / 256, p.1 % 256]

/-- Spec-side emission for the primary region: pairs before the sentinel
use offset 0x2300, the sentinel emits nothing, and pairs after it (minus
any further sentinels, which also emit nothing) use offset 0x1100. -/
def primSpec (pairs : List (Nat × Nat)) : List (List Nat) :=
  (pairs.takeWhile (fun p => !isSentinelPair p)).map (mkInitRecord 0x2300) ++
    (((pairs.dropWhile (fun p => !isSentinelPair p)).drop 1).filter
        (fun p => !isSentinelPair p)).map (mkInitRecord 0x1100)

/-- The init list of a successful parse (empty otherwise). -/
def chipInit : DcfgResult → List (List Nat)
  | .ok c => c.init
  | _ => []

/-! ## Concrete inputs used by the individual verification results -/

/-- A 0x48-byte firmware header with v1 magic, WFPD, `fpga_len = 256` and
`mcu_len = 256` in bounds, but `fpga_offset = 0` and `mcu_offset = 0`
(both offset invariants violated). -/
def c1buf : List Nat :=
  magicBytesV1 ++ List.replicate 32 0 ++ magicWFPD ++ List.replicate 12 0 ++
    [0, 0, 0, 0] ++ [0, 1, 0, 0] ++ [0, 0, 0, 0] ++ [0, 1, 0, 0]

/-- A 0x48-byte firmware header satisfying every §3 invariant:
`fpga_offset = 0x100`, `fpga_len = 256`, `mcu_offset = 0x200`,
`mcu_len = 256`. -/
def c1good : List Nat :=
  magicBytesV1 ++ List.replicate 32 0 ++ magicWFPD ++ List.replicate 12 0 ++
    [0, 1, 0, 0] ++ [0, 1, 0, 0] ++ [0, 2, 0, 0] ++ [0, 1, 0, 0]

/-- An SFDP section: the "SFDP" magic followed by a 256-byte payload. -/
def sfdpSection : List Nat := [0x53, 0x46, 0x44, 0x50] ++ List.replicate 256 0

/-- A 956-byte chip-config buffer: valid header whose `init_offset` of 176
yields an empty primary region, followed by three SFDP sections.  The
first two sections fill the init list to exactly 212 records (129 + 83),
so the third section's unchecked preamble write hits index 212 of the
212-element array. -/
def dcfgPanicInput : List Nat :=
  ([0x44, 0x63, 0x66, 0x67] ++ [1, 0] ++ [1, 0] ++ [176, 0, 0, 0] ++
      List.replicate 4 0 ++ [0xe8, 3, 0, 0] ++ [0xe8, 3, 0, 0] ++
      List.replicate 152 0) ++
    sfdpSection ++ sfdpSection ++ sfdpSection

/-- A 176-byte chip-config buffer whose first init pair (at
`init_offset = 24`) is `(value, reg) = (0, 0xf000)`, making
`reg + 0x2300 = 0x11300` overflow a u16. -/
def c3buf : List Nat :=
  [0x44, 0x63, 0x66, 0x67] ++ [1, 0] ++ [1, 0] ++ [24, 0, 0, 0] ++
    List.replicate 4 0 ++ [200, 0, 0, 0] ++ [200, 0, 0, 0] ++
    [0, 0, 0x00, 0xf0] ++ List.replicate 148 0

/-- An 8192-byte report buffer with record count 1 whose single record is
`[0x01, 0x00, 0x03, 0x00, 0x12, 0x34, 0x00, 0x00]`. -/
def c7buf : List Nat :=
  [0, 1] ++ [0x01, 0x00, 0x03, 0x00, 0x12, 0x34, 0x00, 0x00] ++
    List.replicate 8182 0

/-- An 8192-byte report buffer whose single record is a pad record
(`cmd = 0x00`) with slot byte 0x37. -/
def c8buf : List Nat :=
  [0, 1] ++ [0x00, 0x37, 0, 0, 0, 0, 0, 0] ++ List.replicate 8182 0

/-- A 256-byte identity page storing serial number 1 (little-endian at
bytes 2..6). -/
def idPageA : List Nat := [0, 0, 1, 0, 0, 0] ++ List.replicate 250 0

/-! # Verification results -/

/-! ## C1: firmware-header validation -/

/-- The length-bound phase of `validate_firmware`: it accepts exactly the
buffers within both bounds, and any rejection is `InvalidFirmware`. -/
theorem validateBody_spec (fw : List Nat) :
    (isOk (validateBody fw) = true ↔ lenBoundsOk fw) ∧
      (∀ e, validateBody fw = .error e → e = Err.invalidFirmware) := by
  unfold validateBody lenBoundsOk
  by_cases h : le32 fw 0x3c < 256 ∨ le32 fw 0x44 < 256 ∨
      le32 fw 0x3c > 0x100000 ∨ le32 fw 0x44 > 0xf0000
  · rw [if_pos h]
    refine ⟨⟨fun hc => absurd hc (by simp [isOk]), fun hb => ?_⟩, fun e he => ?_⟩
    · exfalso; omega
    · injection he with he1; exact he1.symm
  · rw [if_neg h]
    push_neg at h
    refine ⟨⟨fun _ => ?_, fun _ => rfl⟩, fun e he => absurd he (by simp)⟩
    refine ⟨?_, ?_, ?_, ?_⟩ <;> omega

/-- One magic-check branch of `validate_firmware`, generic in the primary
magic string. -/
theorem validate_branch_spec (fw magic : List Nat) (mlen : Nat) :
    (isOk (if fw.length < 0x48 ∨ sliceBytes fw 0 mlen ≠ magic ∨
          sliceBytes fw 0x28 4 ≠ magicWFPD then
        (.error .invalidFirmware : Except Err FirmwareInfo)
      else validateBody fw) = true ↔
      (0x48 ≤ fw.length ∧ sliceBytes fw 0 mlen = magic ∧
        sliceBytes fw 0x28 4 = magicWFPD ∧ lenBoundsOk fw)) ∧
    (∀ e, (if fw.length < 0x48 ∨ sliceBytes fw 0 mlen ≠ magic ∨
          sliceBytes fw 0x28 4 ≠ magicWFPD then
        (.error .invalidFirmware : Except Err FirmwareInfo)
      else validateBody fw) = .error e → e = Err.invalidFirmware) := by
  by_cases h : fw.length < 0x48 ∨ sliceBytes fw 0 mlen ≠ magic ∨
      sliceBytes fw 0x28 4 ≠ magicWFPD
  · rw [if_pos h]
    refine ⟨⟨fun hc => absurd hc (by simp [isOk]), ?_⟩, fun e he => ?_⟩
    · rintro ⟨h1, h2, h3, -⟩
      rcases h with h | h | h
      · exact absurd h (by omega)
      · exact absurd h2 h
      · exact absurd h3 h
    · injection he with he1; exact he1.symm
  · rw [if_neg h]
    push_neg at h
    obtain ⟨h1, h2, h3⟩ := h
    refine ⟨?_, (validateBody_spec fw).2⟩
    rw [(validateBody_spec fw).1]
    exact ⟨fun hb => ⟨by omega, h2, h3, hb⟩, fun hb => hb.2.2.2⟩

/-- C1 (amended): for every supported hardware version,
`validate_firmware` accepts a buffer exactly when it is at least 0x48
bytes long, carries the hardware-appropriate primary magic, carries
"WFPD" at 0x28, and has `fpga_len ∈ [256, 0x100000]` and
`mcu_len ∈ [256, 0xf0000]`; every rejection is `InvalidFirmware`.  The
`fpga_offset = 0x100` and `mcu_offset = 0x100 + fpga_len` invariants of
§3 are read but never validated. -/
theorem validate_firmware_accepts_iff (hw : HwVersion) (fw : List Nat)
    (hhw : hw ≠ HwVersion.unknown) :
    (isOk (validate_firmware hw fw) = true ↔
      (0x48 ≤ fw.length ∧ headerMagicOk hw fw ∧
        sliceBytes fw 0x28 4 = magicWFPD ∧ lenBoundsOk fw)) ∧
    (∀ e, validate_firmware hw fw = .error e → e = Err.invalidFirmware) := by
  cases hw with
  | unknown => exact absurd rfl hhw
  | em100ProEarly => simpa [validate_firmware, headerMagicOk] using
      validate_branch_spec fw magicBytesV1 8
  | em100Pro => simpa [validate_firmware, headerMagicOk] using
      validate_branch_spec fw magicBytesV1 8
  | em100ProG2 => simpa [validate_firmware, headerMagicOk] using
      validate_branch_spec fw magicBytesV2 11

/-- C1 (counterexample): `c1buf` violates the `fpga_offset = 0x100` and
`mcu_offset = 0x100 + fpga_len` invariants yet `validate_firmware`
accepts it, refuting the claim that a buffer violating any single §3
invariant is rejected. -/
theorem validate_firmware_offsets_not_checked :
    isOk (validate_firmware .em100Pro c1buf) = true ∧
      le32 c1buf 0x38 ≠ 0x100 ∧
      le32 c1buf 0x40 ≠ 0x100 + le32 c1buf 0x3c := by decide

/-- C1 (witness): a fully §3-conformant header is accepted. -/
theorem validate_firmware_accepts_iff_witness :
    isOk (validate_firmware .em100Pro c1good) = true :=
  (validate_firmware_accepts_iff .em100Pro c1good (by decide)).1.mpr
    ⟨by decide, by decide, by decide, by decide⟩

/-! ## C10: unknown hardware versions -/

/-- C10: every hardware-version byte outside {0xff, 0x04, 0x06} maps to
`Unknown`, and both `validate_firmware` and `firmware_to_dpfw` then fail
with `UnsupportedHardware` for every input blob (the result is the same
error for all blobs, i.e. the data is never examined). -/
theorem unknown_hw_rejected (v : Nat) (h1 : v ≠ 0xff) (h2 : v ≠ 0x04)
    (h3 : v ≠ 0x06) :
    hwVersionFrom v = HwVersion.unknown ∧
      (∀ fw, validate_firmware (hwVersionFrom v) fw =
        .error (.unsupportedHardware 0)) ∧
      (∀ d, firmware_to_dpfw (hwVersionFrom v) d =
        .err (.unsupportedHardware 0)) := by
  have hv : hwVersionFrom v = HwVersion.unknown := by
    simp [hwVersionFrom, h1, h2, h3]
  exact ⟨hv, fun fw => by rw [hv]; rfl, fun d => by rw [hv]; rfl⟩

/-- C10 (witness): hardware byte 0x05 at the empty blob. -/
theorem unknown_hw_rejected_witness :
    hwVersionFrom 0x05 = HwVersion.unknown ∧
      validate_firmware (hwVersionFrom 0x05) [] =
        .error (.unsupportedHardware 0) ∧
      firmware_to_dpfw (hwVersionFrom 0x05) [] =
        .err (.unsupportedHardware 0) := by
  obtain ⟨a, b, c⟩ := unknown_hw_rejected 0x05 (by decide) (by decide) (by decide)
  exact ⟨a, b [], c []⟩

/-! ## C5: send_cmd padding and truncation -/

/-- C5 (amended): `send_cmd` always transmits exactly 16 bytes; an input
shorter than 16 bytes is zero-padded at the end (not left-padded), an
input longer than 16 bytes is truncated to its first 16 bytes, and a
short write reported by the endpoint fails with the communication error
recording `(written, 16)`. -/
theorem send_cmd_spec (data : List Nat) (written : Nat) :
    (send_cmd_payload data).length = 16 ∧
      (data.length ≤ 16 →
        send_cmd_payload data =
          data.map (fun b => b % 256) ++ List.replicate (16 - data.length) 0) ∧
      (16 < data.length →
        send_cmd_payload data = (data.take 16).map (fun b => b % 256)) ∧
      (written ≠ 16 →
        send_cmd_result written = .error (.communication written 16)) ∧
      (written = 16 → send_cmd_result written = .ok ()) := by
  refine ⟨?_, fun h => ?_, fun h => ?_, fun h => ?_, fun h => ?_⟩
  · simp [send_cmd_payload]; omega
  · simp [send_cmd_payload, List.take_of_length_le h, Nat.min_eq_left h]
  · simp [send_cmd_payload, Nat.min_eq_right (by omega : 16 ≤ data.length), h]
  · simp [send_cmd_result, h]
  · simp [send_cmd_result, h]

/-- C5 (counterexample): input `[1]` is transmitted with the data byte
first and the zero padding after it, not left-padded as claimed. -/
theorem send_cmd_padding_counterexample :
    send_cmd_payload [1] = 1 :: List.replicate 15 0 ∧
      send_cmd_payload [1] ≠ List.replicate 15 0 ++ [1] := by decide

/-- C5 (witness): the spec at a 3-byte input and a short write of 7. -/
theorem send_cmd_spec_witness :
    send_cmd_payload [1, 2, 3] =
        [1, 2, 3].map (fun b => b % 256) ++ List.replicate 13 0 ∧
      send_cmd_result 7 = .error (.communication 7 16) := by
  exact ⟨(send_cmd_spec [1, 2, 3] 7).2.1 (by decide),
    (send_cmd_spec [1, 2, 3] 7).2.2.2.1 (by decide)⟩

/-! ## C6: BufferVcc voltage argument check -/

/-- C6 (amended): `set_voltage` on `BufferVcc` issues the voltage-set
command only when the u16 argument is one of {18, 25, 33} (the driver's
encoding of 1.8 V, 2.5 V, 3.3 V); for every other value it fails with
`InvalidArgument` and sends nothing. -/
theorem set_voltage_buffer_vcc_spec (mv : Nat) :
    (mv % 65536 = 18 ∨ mv % 65536 = 25 ∨ mv % 65536 = 33 →
      set_voltage .bufferVcc mv =
        .ok [0x11, 4, mv % 65536 / 256, mv % 65536 % 256,
          0, 0, 0, 0, 0, 0, 0, 0, 0, 0, 0, 0]) ∧
    (mv % 65536 ≠ 18 → mv % 65536 ≠ 25 → mv % 65536 ≠ 33 →
      set_voltage .bufferVcc mv = .error .invalidArgument) := by
  constructor
  · intro h
    have hcond : ¬(SetVoltageChannel.bufferVcc = SetVoltageChannel.bufferVcc ∧
        mv % 65536 ≠ 18 ∧ mv % 65536 ≠ 25 ∧ mv % 65536 ≠ 33) := by
      rcases h with h | h | h <;> simp [h]
    unfold set_voltage
    rw [if_neg hcond]
    rfl
  · intro h18 h25 h33
    simp [set_voltage, h18, h25, h33]

/-- C6 (counterexample): the spec's millivolt values 1800/2500/3300 are
all rejected with `InvalidArgument`, while 18 (the value the code
accepts) issues the command — refuting mv ∈ {1800, 2500, 3300}. -/
theorem set_voltage_millivolts_counterexample :
    set_voltage .bufferVcc 1800 = .error .invalidArgument ∧
      set_voltage .bufferVcc 2500 = .error .invalidArgument ∧
      set_voltage .bufferVcc 3300 = .error .invalidArgument ∧
      isOk (set_voltage .bufferVcc 18) = true := by decide

/-- C6 (witness): the amended spec at 33 and at 1800. -/
theorem set_voltage_buffer_vcc_spec_witness :
    set_voltage .bufferVcc 33 =
        .ok [0x11, 4, 0, 33, 0, 0, 0, 0, 0, 0, 0, 0, 0, 0, 0, 0] ∧
      set_voltage .bufferVcc 1800 = .error .invalidArgument := by
  exact ⟨by simpa using (set_voltage_buffer_vcc_spec 33).1 (by decide),
    (set_voltage_buffer_vcc_spec 1800).2 (by decide) (by decide) (by decide)⟩

/-! ## C7: brief trace decode of a single read record -/

/-- C7: feeding the decoder, in brief mode with 3-byte addressing and
fresh state, a report buffer with record count 1 and single record
`[0x01, 0x00, 0x03, 0x00, 0x12, 0x34, 0x00, 0x00]` emits exactly one
line: opcode 0x03, name "read", address 0x001234. -/
theorem trace_brief_decode_read :
    (read_spi_trace_report false 0 c7buf (TraceState.new true 3)).2 =
      [TraceOut.briefAddr 0x03 0x001234 "read"] := by decide

/-! ## C8: curpos update -/

/-- C8 (amended): after processing a record whose command byte is neither
0x00 (pad) nor 0xff (timestamp), the tracker's `curpos` equals
`(slot + 0x10) mod 256` where `slot` is the record's second byte; pad and
timestamp records leave `curpos` unchanged. -/
theorem curpos_update_spec (dt : Bool) (aoff : Nat) (data : List Nat)
    (i : Nat) (s : TraceState) :
    (byteAt data (2 + i * 8) ≠ 0 → byteAt data (2 + i * 8) ≠ 0xff →
      (processRecord dt aoff data i s).1.curpos =
        (byteAt data (2 + i * 8 + 1) + 0x10) % 256) ∧
    (byteAt data (2 + i * 8) = 0 ∨ byteAt data (2 + i * 8) = 0xff →
      (processRecord dt aoff data i s).1.curpos = s.curpos) := by
  constructor
  · intro h0 hff
    simp only [processRecord]
    rw [if_neg h0, if_neg hff]
  · rintro (h | h) <;> simp [processRecord, h]

/-- C8 (counterexample): a pad record (`cmd = 0x00`) with slot byte 0x37
leaves `curpos` at 0 instead of the claimed `(0x37 + 0x10) mod 256`. -/
theorem curpos_pad_record_counterexample :
    (processRecord false 0 c8buf 0 (TraceState.new true 3)).1.curpos = 0 ∧
      (0x37 + 0x10) % 256 = 0x47 ∧ (0 : Nat) ≠ 0x47 := by decide

/-- C8 (witness): the data record of `c7buf` updates `curpos` to
`(0 + 0x10) mod 256`. -/
theorem curpos_update_spec_witness :
    (processRecord false 0 c7buf 0 (TraceState.new true 3)).1.curpos =
      (byteAt c7buf 3 + 0x10) % 256 :=
  (curpos_update_spec false 0 c7buf 0 (TraceState.new true 3)).1
    (by decide) (by decide)

/-! ## C9: serial programming is skipped when the serial is unchanged -/

/-- C9: when the requested serial equals the serial stored in the
identity page, `set_serial_no` performs only the initial page read — no
unlock, no sector erase, no page program — and erase/program operations
occur only when the serials differ. -/
theorem set_serial_no_idempotent (idPage magicPage : List Nat) (serial : Nat) :
    (storedSerial idPage = serial % 2 ^ 32 →
      set_serial_no idPage magicPage serial = [.readPage 0x1fff00]) ∧
    (∀ sec, SpiOp.eraseSector sec ∈ set_serial_no idPage magicPage serial →
      storedSerial idPage ≠ serial % 2 ^ 32) ∧
    (∀ a p, SpiOp.writePage a p ∈ set_serial_no idPage magicPage serial →
      storedSerial idPage ≠ serial % 2 ^ 32) ∧
    (SpiOp.unlock ∈ set_serial_no idPage magicPage serial →
      storedSerial idPage ≠ serial % 2 ^ 32) := by
  by_cases h : storedSerial idPage = serial % 2 ^ 32
  · refine ⟨fun _ => by simp [set_serial_no, h], ?_, ?_, ?_⟩ <;>
      simp [set_serial_no, h]
  · exact ⟨fun hc => absurd hc h, fun _ _ => h, fun _ _ _ => h, fun _ => h⟩

/-- C9 (witness): programming serial 1 when the stored serial is
already 1 issues exactly the one page read. -/
theorem set_serial_no_idempotent_witness :
    set_serial_no idPageA [] 1 = [.readPage 0x1fff00] :=
  (set_serial_no_idempotent idPageA [] 1).1 (by decide)

/-! ## C2: parse_dcfg out-of-bounds write -/

set_option maxRecDepth 100000 in
/-- C2 (failing input): on `dcfgPanicInput` the source's
`parse_sfdp` writes its enable-SFDP preamble at index 212 of the
212-element `init` array — an index-out-of-bounds panic — because the
write carries no bound check.  This refutes the claim that `parse_dcfg`
executes without out-of-bounds indexing on every input. -/
theorem parse_dcfg_panics_on_crafted_input :
    parse_dcfg dcfgPanicInput = DcfgResult.panic ∧
      dcfgPanicInput.length = 956 := by
  constructor
  · decide
  · decide

/-! ## C4: chunked SDRAM write -/

/-- Invariants of the SDRAM write chunk loop, by induction on the fuel:
the accepted total never exceeds `length`, every submitted chunk is at
most 2 MiB, the progress callback fires once per chunk, and on full
success the chunk count is the ceiling of `(length - sent) / 2 MiB`. -/
theorem write_sdram_loop_spec (accept : Nat → Nat → Nat) (length : Nat) :
    ∀ fuel sent k, length - sent ≤ fuel → sent ≤ length →
      (write_sdram_loop accept length fuel sent k).sent ≤ length ∧
      (∀ c ∈ (write_sdram_loop accept length fuel sent k).chunks,
        c ≤ TRANSFER_LENGTH) ∧
      (write_sdram_loop accept length fuel sent k).progress.length =
        (write_sdram_loop accept length fuel sent k).chunks.length ∧
      ((write_sdram_loop accept length fuel sent k).sent = length →
        (write_sdram_loop accept length fuel sent k).chunks.length =
          (length - sent + TRANSFER_LENGTH - 1) / TRANSFER_LENGTH) := by
  have hT : 1 ≤ TRANSFER_LENGTH := by unfold TRANSFER_LENGTH; omega
  intro fuel
  induction fuel with
  | zero =>
    intro sent k hfuel hle
    have hs : sent = length := by omega
    subst hs
    simp only [write_sdram_loop]
    refine ⟨le_refl _, by simp, trivial, fun _ => ?_⟩
    simp only [List.length_nil, Nat.sub_self]
    exact (Nat.div_eq_of_lt (by omega)).symm
  | succ n ih =>
    intro sent k hfuel hle
    by_cases hlt : sent < length
    · simp only [write_sdram_loop]
      rw [if_pos hlt]
      have hwle : min (length - sent) TRANSFER_LENGTH ≤ length - sent :=
        Nat.min_le_left _ _
      have hwT : min (length - sent) TRANSFER_LENGTH ≤ TRANSFER_LENGTH :=
        Nat.min_le_right _ _
      have hwpos : 1 ≤ min (length - sent) TRANSFER_LENGTH := by omega
      have hale : min (accept k (min (length - sent) TRANSFER_LENGTH))
          (min (length - sent) TRANSFER_LENGTH) ≤
            min (length - sent) TRANSFER_LENGTH := Nat.min_le_right _ _
      by_cases hshort :
          min (accept k (min (length - sent) TRANSFER_LENGTH))
              (min (length - sent) TRANSFER_LENGTH) <
            min (length - sent) TRANSFER_LENGTH
      · rw [if_pos hshort]
        refine ⟨by dsimp only; omega, ?_, rfl, fun hdone => ?_⟩
        · intro c hc
          simp only [List.mem_singleton] at hc
          subst hc
          exact hwT
        · exfalso
          dsimp only at hdone
          omega
      · rw [if_neg hshort]
        obtain ⟨ih1, ih2, ih3, ih4⟩ :=
          ih (sent + min (length - sent) TRANSFER_LENGTH) (k + 1)
            (by omega) (by omega)
        refine ⟨by dsimp only; omega, ?_, ?_, fun hdone => ?_⟩
        · intro c hc
          dsimp only at hc
          simp only [List.mem_cons] at hc
          rcases hc with hc | hc
          · subst hc; exact hwT
          · exact ih2 c hc
        · dsimp only
          simp [ih3]
        · dsimp only at hdone ⊢
          simp only [List.length_cons]
          rw [ih4 hdone]
          by_cases hsmall : length - sent ≤ TRANSFER_LENGTH
          · have hmin : min (length - sent) TRANSFER_LENGTH = length - sent :=
              Nat.min_eq_left hsmall
            rw [hmin]
            have hz : length - (sent + (length - sent)) = 0 := by omega
            rw [hz, Nat.div_eq_of_lt (by omega)]
            symm
            exact Nat.div_eq_of_lt_le (by omega) (by omega)
          · have hmin : min (length - sent) TRANSFER_LENGTH = TRANSFER_LENGTH :=
              Nat.min_eq_right (by omega)
            rw [hmin]
            have e1 : length - (sent + TRANSFER_LENGTH) + TRANSFER_LENGTH - 1 =
                length - sent - 1 := by omega
            have e2 : length - sent + TRANSFER_LENGTH - 1 =
                (length - sent - 1) + TRANSFER_LENGTH := by omega
            rw [e1, e2, Nat.add_div_right _ (by omega)]
    · have hs : sent = length := by omega
      subst hs
      simp only [write_sdram_loop, if_neg hlt]
      refine ⟨le_refl _, by simp, trivial, fun _ => ?_⟩
      simp only [List.length_nil, Nat.sub_self]
      exact (Nat.div_eq_of_lt (by omega)).symm

/-- C4: `write_sdram_with_progress` first sends the 16-byte header
`[0x40, addr_be32, len_be32, seven zeros]`, then sends the data in chunks
of at most 0x200000 bytes with the progress callback invoked once after
each chunk; it succeeds exactly when the endpoint accepts all `length`
bytes, in which chunks number the ceiling of `length / 0x200000`, and
otherwise fails with the communication error recording
`(sent, length)`. -/
theorem write_sdram_spec (accept : Nat → Nat → Nat) (address length : Nat) :
    write_sdram_cmd address length =
      [0x40] ++ be32 address ++ be32 length ++ List.replicate 7 0 ∧
    (∀ c ∈ (write_sdram_run accept length).chunks, c ≤ 0x200000) ∧
    (write_sdram_run accept length).progress.length =
      (write_sdram_run accept length).chunks.length ∧
    (write_sdram_result accept length = .ok () ↔
      (write_sdram_run accept length).sent = length) ∧
    ((write_sdram_run accept length).sent < length →
      write_sdram_result accept length =
        .error (.communication (write_sdram_run accept length).sent length)) ∧
    ((write_sdram_run accept length).sent = length →
      (write_sdram_run accept length).progress.length =
        (length + 0x200000 - 1) / 0x200000) := by
  obtain ⟨h1, h2, h3, h4⟩ :=
    write_sdram_loop_spec accept length length 0 0 (by omega) (by omega)
  simp only [write_sdram_result, write_sdram_run] at h1 h2 h3 h4 ⊢
  refine ⟨rfl, ?_, h3, ?_, fun hlt => ?_, fun hdone => ?_⟩
  · simpa [TRANSFER_LENGTH] using h2
  · by_cases h : (write_sdram_loop accept length length 0 0).sent = length <;>
      simp [h]
  · rw [if_pos (by omega)]
  · rw [h3, h4 hdone]
    norm_num [TRANSFER_LENGTH]

/-- C4 (witness): a fully accepting endpoint writing 0x300000 bytes
succeeds with two chunks, matching the ceiling count in the spec's
scenario. -/
theorem write_sdram_spec_witness :
    write_sdram_result (fun _ w => w) 0x300000 = .ok () ∧
      (write_sdram_run (fun _ w => w) 0x300000).progress.length = 2 := by
  have h := write_sdram_spec (fun _ w => w) 0 0x300000
  have hsent : (write_sdram_run (fun _ w => w) 0x300000).sent = 0x300000 := by decide
  refine ⟨h.2.2.2.1.mpr hsent, ?_⟩
  rw [h.2.2.2.2.2 hsent]


/-! ## C3: primary init-region emission -/

/-- After the sentinel has switched the offset to 0x1100, the primary
loop emits exactly the non-sentinel pairs under offset 0x1100 (further
sentinels re-assign the same offset and emit nothing). -/
theorem parse_init_after_sentinel (data : List Nat) :
    ∀ fuel pos init, init.length + fuel ≤ NUM_INIT_ENTRIES →
      parse_init data fuel pos 0x1100 init =
        init ++ ((readPairs data fuel pos).filter
          (fun p => !isSentinelPair p)).map (mkInitRecord 0x1100) := by
  intro fuel
  induction fuel with
  | zero => intro pos init h; simp [parse_init, readPairs]
  | succ n ih =>
    intro pos init h
    by_cases hpos : pos + 4 ≤ 176
    · have hlen : init.length < NUM_INIT_ENTRIES := by
        unfold NUM_INIT_ENTRIES at h ⊢; omega
      simp only [parse_init, readPairs]
      rw [if_pos ⟨hpos, hlen⟩, if_pos hpos]
      by_cases hs : le16 data pos = 0xffff ∧ le16 data (pos + 2) = 0xffff
      · have hsp : isSentinelPair (le16 data pos, le16 data (pos + 2)) = true := by
          simp [isSentinelPair, hs.1, hs.2]
        rw [if_pos hs]
        rw [ih (pos + 4) init (by omega)]
        simp [List.filter_cons, hsp]
      · have hsp : isSentinelPair (le16 data pos, le16 data (pos + 2)) = false := by
          simp only [isSentinelPair, Bool.and_eq_false_iff, beq_eq_false_iff_ne]
          tauto
        rw [if_neg hs]
        rw [ih (pos + 4) _ (by simp; omega)]
        simp only [List.filter_cons, hsp, Bool.not_false, if_pos]
        simp [mkInitRecord, List.append_assoc]
    · simp only [parse_init, readPairs]
      rw [if_neg (fun hc => hpos hc.1), if_neg hpos]
      simp

/-- The primary loop started with offset 0x2300 realises `primSpec`. -/
theorem parse_init_spec_23 (data : List Nat) :
    ∀ fuel pos init, init.length + fuel ≤ NUM_INIT_ENTRIES →
      parse_init data fuel pos 0x2300 init =
        init ++ primSpec (readPairs data fuel pos) := by
  intro fuel
  induction fuel with
  | zero => intro pos init h; simp [parse_init, readPairs, primSpec]
  | succ n ih =>
    intro pos init h
    by_cases hpos : pos + 4 ≤ 176
    · have hlen : init.length < NUM_INIT_ENTRIES := by
        unfold NUM_INIT_ENTRIES at h ⊢; omega
      simp only [parse_init, readPairs]
      rw [if_pos ⟨hpos, hlen⟩, if_pos hpos]
      by_cases hs : le16 data pos = 0xffff ∧ le16 data (pos + 2) = 0xffff
      · have hsp : isSentinelPair (le16 data pos, le16 data (pos + 2)) = true := by
          simp [isSentinelPair, hs.1, hs.2]
        rw [if_pos hs]
        rw [parse_init_after_sentinel data n (pos + 4) init (by omega)]
        simp [primSpec, List.takeWhile_cons, List.dropWhile_cons, hsp]
      · have hsp : isSentinelPair (le16 data pos, le16 data (pos + 2)) = false := by
          simp only [isSentinelPair, Bool.and_eq_false_iff, beq_eq_false_iff_ne]
          tauto
        rw [if_neg hs]
        rw [ih (pos + 4) _ (by simp; omega)]
        simp [primSpec, List.takeWhile_cons, List.dropWhile_cons, hsp,
          mkInitRecord, List.append_assoc]
    · simp only [parse_init, readPairs]
      rw [if_neg (fun hc => hpos hc.1), if_neg hpos]
      simp [primSpec]

/-- With no section data left, the optional-sections loop returns the
init list unchanged. -/
theorem parse_sections_zero_len (data : List Nat) (fuel ptr : Nat)
    (init : List (List Nat)) :
    parse_sections data fuel ptr 0 init = .ok init := by
  cases fuel <;> simp [parse_sections]

/-- C3 (amended): every non-sentinel `(value, reg)` pair of the primary
init region is emitted as `[full_reg_hi, full_reg_lo, value_hi,
value_lo]` with `full_reg = (reg + reg_offset) mod 2^16` — the u16
wrapping sum, not the unbounded sum — where `reg_offset` is 0x2300 for
every pair before the `(0xffff, 0xffff)` sentinel and 0x1100 for every
pair after it, and the sentinel itself emits no record (`primSpec` states
exactly this rule).  For a sections-free valid buffer this is the whole
init list `parse_dcfg` returns. -/
theorem parse_init_matches_spec (data : List Nat) :
    (∀ pos, parse_init data 44 pos 0x2300 [] =
      primSpec (readPairs data 44 pos)) ∧
    (data.length = 176 → le32 data 0 = 0x67666344 →
      le16 data 4 = 1 → le16 data 6 = 1 →
      ∃ c, parse_dcfg data = DcfgResult.ok c ∧
        c.init = primSpec (readPairs data 44 (le32 data 8))) := by
  have hmain : ∀ pos, parse_init data 44 pos 0x2300 [] =
      primSpec (readPairs data 44 pos) := by
    intro pos
    have := parse_init_spec_23 data 44 pos [] (by simp [NUM_INIT_ENTRIES])
    simpa using this
  refine ⟨hmain, fun hlen hmagic hv4 hv6 => ?_⟩
  refine ⟨{ vendor := if le32 data 16 < data.length then
              readCString data (le32 data 16) else []
            name := if le32 data 20 < data.length then
              readCString data (le32 data 20) else []
            size := le32 data 12
            init := parse_init data 44 (le32 data 8) 0x2300 [] }, ?_, hmain _⟩
  simp only [parse_dcfg]
  rw [if_neg (by omega), if_neg (by simp [hmagic]), if_neg (by simp [hv4, hv6])]
  rw [hlen]
  rw [show (176 : Nat) - 176 = 0 from rfl]
  rw [parse_sections_zero_len]

set_option maxRecDepth 40000 in
/-- C3 (counterexample): on `c3buf` the pair `(value, reg) = (0, 0xf000)`
is emitted with first byte 0x13 — the high byte of the wrapped sum
`(0xf000 + 0x2300) mod 2^16 = 0x1300` — whereas the claim's unbounded
`full_reg = reg + reg_offset = 0x11300` has high "byte" 0x113, so the
record is not `[full_reg_hi, full_reg_lo, value_hi, value_lo]` for that
`full_reg`. -/
theorem parse_init_wrapping_counterexample :
    (chipInit (parse_dcfg c3buf)).getD 0 [] = [0x13, 0x00, 0x00, 0x00] ∧
      le16 c3buf 26 = 0xf000 ∧
      0xf000 + 0x2300 = 0x11300 ∧
      (0xf000 + 0x2300) / 256 ≠ 0x13 := by decide

set_option maxRecDepth 40000 in
/-- C3 (witness): the amended rule on the concrete buffer `c3buf`. -/
theorem parse_init_matches_spec_witness :
    chipInit (parse_dcfg c3buf) =
      primSpec (readPairs c3buf 44 (le32 c3buf 8)) := by
  obtain ⟨c, hc, hi⟩ := (parse_init_matches_spec c3buf).2
    (by decide) (by decide) (by decide) (by decide)
  rw [hc]
  exact hi

end Rem100
